import Mathlib

/-!
Shallow embedding of the `refer` terminal application core (src/src/main.rs):
the input-dispatch protocol (`key_listener`, `quit_listener`, `normal_key_event`,
`write_key_event`), resource initialisation (`init_resource`), the cleanup
sequence of `impl Drop for App`, and the crash-reporting bookkeeping of `main`.

The state types `Pointer`, `EntryBox`, `FileBuff` and the typed registry
`Resource` live in modules (`cursor.rs`, `resource.rs`) that are not part of
the available source; they are modelled from the specification's data model
(spec sections 3, 4.2, 4.3) and marked as such in their doc comments.
-/

/-! ## Input events (crossterm) -/

/-- Key codes referenced by the dispatcher's patterns; every other crossterm
key code is collapsed into `Other`, which no dispatch pattern matches. -/
inductive KeyCode
  | Char (c : Char)
  | Left
  | Right
  | Enter
  | Backspace
  | Other
deriving DecidableEq

/-- Modifier bitmasks as in crossterm: SHIFT = 1, CONTROL = 2, ALT = 4. -/
def KeyModifiers.CONTROL : Nat := 2

/-- A key event: code plus modifier mask (the further crossterm fields
`kind`/`state` are ignored by every pattern in the source, written `..`). -/
structure KeyEvent where
  code : KeyCode
  modifiers : Nat
deriving DecidableEq

/-- An input event. All non-key crossterm events (mouse, resize, focus,
paste) are collapsed into `NonKey`: no dispatch pattern inspects them. -/
inductive Event
  | Key (k : KeyEvent)
  | NonKey
deriving DecidableEq

/-! ## State types (spec-modelled: `cursor.rs` / `resource.rs` are absent) -/

/-- Modelled from the spec: the focusable region identifiers of FocusState —
Set A holds the navigation regions `Files` and `View`, Set B holds the
entry-only region `Entry` (spec section 4.2). -/
inductive Region
  | Files
  | View
  | Entry
deriving DecidableEq

/-- Modelled from the spec: which of the two predefined cursor sets is
active (spec section 4.2). -/
inductive CursorSet
  | A
  | B
deriving DecidableEq

/-- Modelled from the spec: FocusState (`Pointer` in the source) — an
enumerated cursor over named regions with an active set; `lastA` records the
last-active Set A region so that toggling back restores it (spec 4.2). -/
structure Pointer where
  cursorSet : CursorSet
  cursor : Region
  lastA : Region
deriving DecidableEq

/-- Initial state: Set A active, cursor on `Files` (spec 4.2). -/
def Pointer.new : Pointer := ⟨.A, .Files, .Files⟩

/-- Modelled from the spec: `toggle` switches the active set; A→B moves the
cursor to the entry region remembering the A cursor, B→A restores it. -/
def Pointer.toggle (p : Pointer) : Pointer :=
  match p.cursorSet with
  | .A => ⟨.B, .Entry, p.cursor⟩
  | .B => ⟨.A, p.lastA, p.lastA⟩

/-- Modelled from the spec: `set_cursor` jumps to a named region while Set A
is active and is a silent no-op while Set B is active (spec 4.2). -/
def Pointer.set_cursor (p : Pointer) (r : Region) : Pointer :=
  match p.cursorSet with
  | .A => { p with cursor := r }
  | .B => p

/-- Modelled from the spec: TextEntryState (`EntryBox` in the source) — a
line-editing buffer with an active flag (spec section 3). -/
structure EntryBox where
  active : Bool
  buffer : String
deriving DecidableEq

/-- Modelled from the spec: a fresh entry box is inactive with an empty
buffer. -/
def EntryBox.new : EntryBox := ⟨false, ""⟩

/-- Modelled from the spec: `push(char)` appends one character. -/
def EntryBox.push (e : EntryBox) (c : Char) : EntryBox :=
  { e with buffer := e.buffer.push c }

/-- Modelled from the spec: `pop()` removes the last character if present
(no-op on empty). -/
def EntryBox.pop (e : EntryBox) : EntryBox :=
  { e with buffer := e.buffer.dropRight 1 }

/-- Modelled from the spec: `clear()` empties the buffer, leaving `active`
unchanged. -/
def EntryBox.clear (e : EntryBox) : EntryBox :=
  { e with buffer := "" }

/-- Modelled from the spec: `take()` returns the buffer contents and leaves
the buffer empty (ownership transfer). -/
def EntryBox.take (e : EntryBox) : String × EntryBox :=
  (e.buffer, { e with buffer := "" })

/-- Modelled from the spec: `toggle()` flips the active flag. -/
def EntryBox.toggle (e : EntryBox) : EntryBox :=
  { e with active := !e.active }

/-- Modelled from the spec: `bool()` reads the active flag. -/
def EntryBox.bool (e : EntryBox) : Bool := e.active

/-- Modelled from the spec: FileListState (`FileBuff` in the source) — an
ordered, duplicate-permitting sequence of file identifiers (spec section 3). -/
structure FileBuff where
  files : List String
deriving DecidableEq

/-- Modelled from the spec: the default file list is empty. -/
def FileBuff.default : FileBuff := ⟨[]⟩

/-- Modelled from the spec: `insert(name)` appends one identifier. -/
def FileBuff.insert (f : FileBuff) (name : String) : FileBuff :=
  ⟨f.files ++ [name]⟩

/-- Modelled from the spec: the typed registry (`Resource`), restricted to
the exact set of resource types inserted by `init_resource` — the argument
list (`Vec<String>`), `Pointer`, `EntryBox` and `FileBuff`. Type-keyed
lookup on these four types is total, so the registry is a product. -/
structure Resource where
  filename : List String
  pointer : Pointer
  entryBox : EntryBox
  fileBuff : FileBuff
deriving DecidableEq

/-! ## The dispatcher (translated from src/src/main.rs) -/

/-- Poll tick in milliseconds (`pub const DELTA: u64 = 16`). -/
def DELTA : Nat := 16

/-- Translation of `quit_listener` (main.rs lines 86–101): true exactly on a key event
whose code is `Char 'q'` or `Char 'c'` with modifier mask exactly CONTROL. -/
def quit_listener (event : Event) : Bool :=
  match event with
  | .Key k =>
    match k.code with
    | .Char c => (c == 'q' || c == 'c') && k.modifiers == KeyModifiers.CONTROL
    | _ => false
  | .NonKey => false

/-- Translation of `normal_key_event` (main.rs lines 103–123): Ctrl+N toggles `Pointer` and
`EntryBox`; Left/Right (any modifiers) set the cursor to `Files`/`View`;
everything else falls through to the wildcard arm. -/
def normal_key_event (event : Event) (res : Resource) : Resource :=
  match event with
  | .Key k =>
    match k.code with
    | .Char c =>
      if c == 'n' && k.modifiers == KeyModifiers.CONTROL then
        { res with pointer := res.pointer.toggle, entryBox := res.entryBox.toggle }
      else res
    | .Left => { res with pointer := res.pointer.set_cursor .Files }
    | .Right => { res with pointer := res.pointer.set_cursor .View }
    | _ => res
  | .NonKey => res

/-- Translation of `write_key_event` (main.rs lines 125–155): Ctrl+N cancels entry (toggle
pointer, clear then toggle the entry box); Enter commits (take, insert into
the file list, toggle both); Backspace pops; any other character (any
modifiers) is pushed; everything else falls through. -/
def write_key_event (event : Event) (res : Resource) : Resource :=
  match event with
  | .Key k =>
    match k.code with
    | .Char c =>
      if c == 'n' && k.modifiers == KeyModifiers.CONTROL then
        { res with pointer := res.pointer.toggle,
                   entryBox := res.entryBox.clear.toggle }
      else
        { res with entryBox := res.entryBox.push c }
    | .Enter =>
      let taken := res.entryBox.take
      { res with pointer := res.pointer.toggle,
                 entryBox := taken.2.toggle,
                 fileBuff := res.fileBuff.insert taken.1 }
    | .Backspace => { res with entryBox := res.entryBox.pop }
    | _ => res
  | .NonKey => res

/-- Translation of `key_listener` (main.rs lines 71–84): `polled` is the event delivered
within the tick (`none` when `poll` timed out). Quit combinations are
checked first; otherwise dispatch branches on `EntryBox.bool()`. Returns
the quit signal together with the updated registry. -/
def key_listener (polled : Option Event) (res : Resource) : Bool × Resource :=
  match polled with
  | none => (false, res)
  | some event =>
    if quit_listener event then (true, res)
    else
      match res.entryBox.bool with
      | true => (false, write_key_event event res)
      | false => (false, normal_key_event event res)

/-- Translation of `init_resource` (main.rs lines 157–167): builds the registry from the
positional arguments — the argument list itself, a fresh `Pointer`, a fresh
`EntryBox` and the default `FileBuff`. No argument count is checked. -/
def init_resource (args : List String) : Resource :=
  { filename := args
    pointer := Pointer.new
    entryBox := EntryBox.new
    fileBuff := FileBuff.default }

/-! ## `App::run` startup effects (main.rs lines 39–47) -/

/-- The terminal effects issued by the start of `App::run`. -/
inductive Effect
  | enterAlternateScreen
  | enableMouseCapture
deriving DecidableEq

/-- The effects `App::run` executes before its first loop iteration: it
enters the alternate screen and enables mouse capture (one `execute!`),
then builds the registry with `init_resource` and enters the draw/poll
loop. The argument list is never inspected on this path. -/
def runPrelude (_args : List String) : List Effect :=
  [.enterAlternateScreen, .enableMouseCapture]

/-! ## Cleanup on drop (main.rs lines 58–69, `impl Drop for App`) -/

/-- The three fallible release operations the drop implementation invokes,
in source order: `disable_raw_mode()`, one `execute!` batching
`LeaveAlternateScreen` and `DisableMouseCapture`, and `show_cursor()`. -/
structure CleanupOps where
  disableRawMode : Except String Unit
  leaveAltScreenDisableMouse : Except String Unit
  showCursor : Except String Unit

/-- Labels for the release operations, used to record which ones ran. -/
inductive CleanupStep
  | disableRawMode
  | leaveAltScreenDisableMouse
  | showCursor
deriving DecidableEq

/-- Translation of `impl Drop for App`: each release operation's result is `.unwrap()`ed,
so a failing operation panics out of the drop and the remaining operations
never run. Returns the list of operations that were invoked together with
whether the drop itself panicked. -/
def appDrop (ops : CleanupOps) : List CleanupStep × Bool :=
  match ops.disableRawMode with
  | .error _ => ([.disableRawMode], true)
  | .ok _ =>
    match ops.leaveAltScreenDisableMouse with
    | .error _ => ([.disableRawMode, .leaveAltScreenDisableMouse], true)
    | .ok _ =>
      match ops.showCursor with
      | .error _ =>
          ([.disableRawMode, .leaveAltScreenDisableMouse, .showCursor], true)
      | .ok _ =>
          ([.disableRawMode, .leaveAltScreenDisableMouse, .showCursor], false)

/-! ## Crash reporter (main.rs lines 169–208, `main` and its panic hook) -/

/-- A panic payload as the installed hook sees it: the dynamic type is
either `&'static str`, `String`, or something else. -/
inductive PanicPayload
  | staticStr (s : String)
  | ownedString (s : String)
  | other
deriving DecidableEq

/-- Model of `info.payload().downcast_ref` at type `&'static str`: succeeds exactly on a
static text payload. -/
def downcastStaticStr : PanicPayload → Option String
  | .staticStr s => some s
  | _ => none

/-- Model of `info.payload().downcast_ref` at type `String`: succeeds exactly on an owned
text payload. -/
def downcastString : PanicPayload → Option String
  | .ownedString s => some s
  | _ => none

/-- The message the hook extracts (main.rs lines 178–184): the nested
downcast chain — static text verbatim, else owned text verbatim, else the
fixed placeholder. -/
def hookMsg (p : PanicPayload) : String :=
  match downcastStaticStr p with
  | some s => s
  | none =>
    match downcastString p with
    | some s => s
    | none => "Box<dyn Any>"

/-- The panic hooks that can be installed while `main` runs: whatever hook
was installed before `main` took it, or the capture hook `main` installs. -/
inductive Hook
  | prior
  | capture
deriving DecidableEq

/-- Process-wide state the crash reporter touches: the currently installed
panic hook and the mutex-guarded message buffer (one entry per hook
invocation; the hook appends with `push_str`, so the reported text is the
concatenation). -/
structure ProcState where
  hook : Hook
  msgs : List String
deriving DecidableEq

/-- One invocation of the capture hook (main.rs lines 175–187): extracts
the message from the payload and appends it to the guarded buffer. -/
def runHook (st : ProcState) (p : PanicPayload) : ProcState :=
  { st with msgs := st.msgs ++ [hookMsg p] }

/-- What the guarded session body does: either it completes cleanly, or it
panics with some payload (covering both `panic!` sites inside the
`catch_unwind` closure and any unwind from `App::run` or the drop). -/
inductive SessionRun
  | clean
  | panics (p : PanicPayload)
deriving DecidableEq

/-- Translation of `main` (lines 169–208): starts with an empty buffer and the prior hook;
takes the old hook and installs the capture hook; runs the body under
`catch_unwind` (a panicking body triggers the capture hook once); restores
the old hook unconditionally; returns `Ok(())` on a clean body and
`Err(anyhow!("{}", panic_buff))` — the concatenated buffer — on a caught
unwind. Returns the final process state and the reported result. -/
def mainModel (session : SessionRun) : ProcState × Except String Unit :=
  let st0 : ProcState := { hook := .prior, msgs := [] }
  let old_hook := st0.hook
  let st1 : ProcState := { st0 with hook := .capture }
  let bodyOut : ProcState × Except Unit Unit :=
    match session with
    | .clean => (st1, .ok ())
    | .panics p => (runHook st1 p, .error ())
  let st3 : ProcState := { bodyOut.1 with hook := old_hook }
  match bodyOut.2 with
  | .ok _ => (st3, .ok ())
  | .error _ => (st3, .error (String.join st3.msgs))

/-! ## Which events the dispatch arms match -/

/-- Characterisation of the events matched by some non-wildcard arm of
`normal_key_event`: Ctrl+N, Left, Right. -/
def normalMatched (event : Event) : Bool :=
  match event with
  | .Key k =>
    match k.code with
    | .Char c => c == 'n' && k.modifiers == KeyModifiers.CONTROL
    | .Left => true
    | .Right => true
    | _ => false
  | .NonKey => false

/-- Characterisation of the events matched by some non-wildcard arm of
`write_key_event`: any character (any modifiers), Enter, Backspace. -/
def writeMatched (event : Event) : Bool :=
  match event with
  | .Key k =>
    match k.code with
    | .Char _ => true
    | .Enter => true
    | .Backspace => true
    | _ => false
  | .NonKey => false

/-- Characterisation of the events handled by some branch of the whole
dispatch: the quit check first, then the arms of the mode selected by the
entry-box flag. -/
def handledEvent (active : Bool) (event : Event) : Bool :=
  quit_listener event ||
    (match active with
     | true => writeMatched event
     | false => normalMatched event)

/-! ## Sample registry states used by the witnesses -/

/-- Registry after Ctrl+N from a fresh start: entry mode active, empty
buffer. -/
def resActive : Resource :=
  (key_listener (some (.Key ⟨.Char 'n', KeyModifiers.CONTROL⟩))
    (init_resource [])).2

/-- Helper to build a plain character key event (no modifiers). -/
def charEvent (c : Char) : Event := .Key ⟨.Char c, 0⟩

/-- Registry after additionally pushing the characters of "abc". -/
def resAbc : Resource :=
  (key_listener (some (charEvent 'c'))
    (key_listener (some (charEvent 'b'))
      (key_listener (some (charEvent 'a')) resActive).2).2).2

/-- Registry after committing "abc" with Enter. -/
def resAfterCommit : Resource :=
  (key_listener (some (.Key ⟨.Enter, 0⟩)) resAbc).2

/-- Registry after re-entering entry mode (Ctrl+N) with an empty buffer. -/
def resActiveAgain : Resource :=
  (key_listener (some (.Key ⟨.Char 'n', KeyModifiers.CONTROL⟩))
    resAfterCommit).2

/-! ## Helper lemmas -/

/-- An event matched by no arm of `normal_key_event` leaves the registry
unchanged. -/
theorem normal_key_event_unmatched (e : Event) (res : Resource)
    (h : normalMatched e = false) : normal_key_event e res = res := by
  cases e with
  | NonKey => rfl
  | Key k =>
    obtain ⟨code, m⟩ := k
    cases code with
    | Char c =>
      have h' : (c == 'n' && m == KeyModifiers.CONTROL) = false := h
      simp only [normal_key_event, h', Bool.false_eq_true, if_false]
    | Left => simp [normalMatched] at h
    | Right => simp [normalMatched] at h
    | Enter => rfl
    | Backspace => rfl
    | Other => rfl

/-- An event matched by no arm of `write_key_event` leaves the registry
unchanged. -/
theorem write_key_event_unmatched (e : Event) (res : Resource)
    (h : writeMatched e = false) : write_key_event e res = res := by
  cases e with
  | NonKey => rfl
  | Key k =>
    obtain ⟨code, m⟩ := k
    cases code with
    | Char c => simp [writeMatched] at h
    | Enter => simp [writeMatched] at h
    | Backspace => simp [writeMatched] at h
    | Left => rfl
    | Right => rfl
    | Other => rfl

/-! ## Claims -/

/-- C1: a Ctrl+Q or Ctrl+C key event makes `key_listener` return the quit
signal with the registry unchanged, for every registry state — in
particular also while the entry box is active, so the event is never routed
into entry-mode character handling and no registry mutation occurs. -/
theorem quit_precedence_over_modes (c : Char) (m : Nat) (res : Resource)
    (h : (c = 'q' ∨ c = 'c') ∧ m = KeyModifiers.CONTROL) :
    key_listener (some (.Key ⟨.Char c, m⟩)) res = (true, res) := by
  obtain ⟨hc, hm⟩ := h
  subst hm
  have hq : quit_listener (.Key ⟨.Char c, KeyModifiers.CONTROL⟩) = true := by
    rcases hc with h | h <;> subst h <;> rfl
  simp [key_listener, hq]

/-- Witness for C1 at Ctrl+Q delivered while the entry box is active. -/
theorem quit_precedence_over_modes_witness :
    ((('q' : Char) = 'q' ∨ ('q' : Char) = 'c') ∧ (2 : Nat) = KeyModifiers.CONTROL) ∧
    resAbc.entryBox.bool = true ∧
    key_listener (some (.Key ⟨.Char 'q', 2⟩)) resAbc = (true, resAbc) :=
  ⟨⟨Or.inl rfl, rfl⟩, by decide,
    quit_precedence_over_modes 'q' 2 resAbc ⟨Or.inl rfl, rfl⟩⟩

/-- C5: while the entry box is active, an Enter event (any modifiers)
commits — the buffer contents are taken (the buffer ends empty), the taken
text is appended as the last element of the file list, and both the pointer
and the entry box are toggled; the session does not quit. -/
theorem enter_commit_roundtrip (m : Nat) (res : Resource)
    (h : res.entryBox.bool = true) :
    key_listener (some (.Key ⟨.Enter, m⟩)) res =
      (false,
       { res with pointer := res.pointer.toggle,
                  entryBox := { active := false, buffer := "" },
                  fileBuff := res.fileBuff.insert res.entryBox.buffer }) := by
  obtain ⟨fn, p, ⟨a, buf⟩, fb⟩ := res
  have ha : a = true := h
  subst ha
  rfl

/-- Witness for C5: after pushing the characters of "abc" a commit appends
exactly "abc" and empties the buffer, and a subsequent commit with no
intervening pushes appends the empty string. -/
theorem enter_commit_roundtrip_witness :
    resAbc.entryBox.bool = true ∧
    resAbc.entryBox.buffer = "abc" ∧
    key_listener (some (.Key ⟨.Enter, 0⟩)) resAbc =
      (false,
       { resAbc with pointer := resAbc.pointer.toggle,
                     entryBox := { active := false, buffer := "" },
                     fileBuff := resAbc.fileBuff.insert resAbc.entryBox.buffer }) ∧
    resAfterCommit.fileBuff.files = ["abc"] ∧
    resActiveAgain.entryBox.bool = true ∧
    resActiveAgain.entryBox.buffer = "" ∧
    (key_listener (some (.Key ⟨.Enter, 0⟩)) resActiveAgain).2.fileBuff.files
      = ["abc", ""] :=
  ⟨by decide, by decide, enter_commit_roundtrip 0 resAbc (by decide),
    by decide, by decide, by decide, by decide⟩

/-- C6: while the entry box is active, a Ctrl+N event cancels entry — the
buffer is cleared, both the pointer and the entry box are toggled, and the
file list (and every other registry entry) is left unchanged, whatever the
buffer held. -/
theorem cancel_discards_input (res : Resource)
    (h : res.entryBox.bool = true) :
    key_listener (some (.Key ⟨.Char 'n', KeyModifiers.CONTROL⟩)) res =
      (false,
       { res with pointer := res.pointer.toggle,
                  entryBox := { active := false, buffer := "" } }) := by
  obtain ⟨fn, p, ⟨a, buf⟩, fb⟩ := res
  have ha : a = true := h
  subst ha
  rfl

/-- Witness for C6 at a state whose buffer holds "abc": the cancel leaves
the file list unchanged and empties the buffer. -/
theorem cancel_discards_input_witness :
    resAbc.entryBox.bool = true ∧
    resAbc.entryBox.buffer = "abc" ∧
    key_listener (some (.Key ⟨.Char 'n', KeyModifiers.CONTROL⟩)) resAbc =
      (false,
       { resAbc with pointer := resAbc.pointer.toggle,
                     entryBox := { active := false, buffer := "" } }) ∧
    (key_listener (some (.Key ⟨.Char 'n', KeyModifiers.CONTROL⟩)) resAbc).2.fileBuff
      = resAbc.fileBuff :=
  ⟨by decide, by decide, cancel_discards_input resAbc (by decide), by decide⟩

/-- C7: the dispatch routes each event to at most one branch — the quit
check first, then the mode chosen by the entry-box flag — so a handled quit
event mutates nothing, and an event matched by no branch of the active mode
leaves every registry entry unchanged. -/
theorem unmatched_event_frame (e : Event) (res : Resource) :
    (handledEvent res.entryBox.bool e = false →
      key_listener (some e) res = (false, res)) ∧
    ((key_listener (some e) res).1 = true →
      (key_listener (some e) res).2 = res) := by
  constructor
  · intro h
    have hq : quit_listener e = false := by
      cases hqe : quit_listener e
      · rfl
      · unfold handledEvent at h
        rw [hqe] at h
        simp at h
    unfold handledEvent at h
    rw [hq] at h
    simp only [Bool.false_or] at h
    simp only [key_listener]
    rw [hq]
    simp only [Bool.false_eq_true, if_false]
    cases hb : res.entryBox.bool
    · rw [hb] at h
      rw [normal_key_event_unmatched e res h]
    · rw [hb] at h
      rw [write_key_event_unmatched e res h]
  · intro h1
    cases hqe : quit_listener e with
    | false =>
      exfalso
      simp only [key_listener] at h1
      rw [hqe] at h1
      simp only [Bool.false_eq_true, if_false] at h1
      cases hb : res.entryBox.bool <;> rw [hb] at h1 <;> simp at h1
    | true =>
      simp only [key_listener]
      rw [hqe]
      simp

/-- Witness for C7: a Left arrow delivered while the entry box is active is
matched by no branch and leaves the registry unchanged. -/
theorem unmatched_event_frame_witness :
    handledEvent resAbc.entryBox.bool (.Key ⟨.Left, 0⟩) = false ∧
    key_listener (some (.Key ⟨.Left, 0⟩)) resAbc = (false, resAbc) :=
  ⟨by decide, (unmatched_event_frame (.Key ⟨.Left, 0⟩) resAbc).1 (by decide)⟩

/-- C8: while the entry box is inactive, Ctrl+N toggles the pointer and the
entry box together, Left (any modifiers) calls `set_cursor Files` — so with
Set A active the cursor lands on `Files` — Right calls `set_cursor View`,
and every event matched by no arm (and not a quit combination) mutates
nothing. -/
theorem normal_mode_behavior (m : Nat) (e : Event) (res : Resource)
    (h : res.entryBox.bool = false) :
    key_listener (some (.Key ⟨.Char 'n', KeyModifiers.CONTROL⟩)) res =
      (false, { res with pointer := res.pointer.toggle,
                         entryBox := res.entryBox.toggle }) ∧
    key_listener (some (.Key ⟨.Left, m⟩)) res =
      (false, { res with pointer := res.pointer.set_cursor .Files }) ∧
    key_listener (some (.Key ⟨.Right, m⟩)) res =
      (false, { res with pointer := res.pointer.set_cursor .View }) ∧
    (res.pointer.cursorSet = CursorSet.A →
      (key_listener (some (.Key ⟨.Left, m⟩)) res).2.pointer.cursor = Region.Files ∧
      (key_listener (some (.Key ⟨.Right, m⟩)) res).2.pointer.cursor = Region.View) ∧
    (normalMatched e = false → quit_listener e = false →
      key_listener (some e) res = (false, res)) := by
  obtain ⟨fn, p, ⟨a, buf⟩, fb⟩ := res
  have ha : a = false := h
  subst ha
  refine ⟨rfl, rfl, rfl, ?_, ?_⟩
  · intro hA
    obtain ⟨cs, cur, la⟩ := p
    have hcs : cs = CursorSet.A := hA
    subst hcs
    exact ⟨rfl, rfl⟩
  · intro hnm hq
    simp only [key_listener]
    rw [hq]
    simp only [Bool.false_eq_true, if_false]
    rw [normal_key_event_unmatched e _ hnm]
    rfl

/-- Witness for C8 at the freshly initialised registry (entry box inactive,
Set A active, cursor on Files); the unmatched event is a plain letter key. -/
theorem normal_mode_behavior_witness :
    (init_resource []).entryBox.bool = false ∧
    key_listener (some (.Key ⟨.Char 'n', KeyModifiers.CONTROL⟩)) (init_resource []) =
      (false, { init_resource [] with
                  pointer := (init_resource []).pointer.toggle,
                  entryBox := (init_resource []).entryBox.toggle }) ∧
    (key_listener (some (.Key ⟨.Left, 0⟩)) (init_resource [])).2.pointer.cursor
      = Region.Files ∧
    key_listener (some (charEvent 'z')) (init_resource []) =
      (false, init_resource []) := by
  have h := normal_mode_behavior 0 (charEvent 'z') (init_resource []) (by decide)
  exact ⟨by decide, h.1, (h.2.2.2.1 (by decide)).1, h.2.2.2.2 (by decide) (by decide)⟩

/-- C10: while the entry box is active, a character key event is pushed
onto the buffer whatever its modifier mask, provided it is not a quit
combination and not Ctrl+N (both matched by earlier branches): the
character-push arm does not restrict the modifiers. -/
theorem entry_push_ignores_modifiers (c : Char) (m : Nat) (res : Resource)
    (h : res.entryBox.bool = true)
    (hq : quit_listener (.Key ⟨.Char c, m⟩) = false)
    (hn : (c == 'n' && m == KeyModifiers.CONTROL) = false) :
    key_listener (some (.Key ⟨.Char c, m⟩)) res =
      (false, { res with entryBox := res.entryBox.push c }) := by
  simp only [key_listener]
  rw [hq]
  simp only [Bool.false_eq_true, if_false]
  rw [h]
  simp only [write_key_event, hn, Bool.false_eq_true, if_false]

/-- Witness for C10: Ctrl+X delivered while the entry box is active pushes
the character 'x'. -/
theorem entry_push_ignores_modifiers_witness :
    resAbc.entryBox.bool = true ∧
    quit_listener (.Key ⟨.Char 'x', 2⟩) = false ∧
    (('x' == 'n' && (2 : Nat) == KeyModifiers.CONTROL) = false) ∧
    key_listener (some (.Key ⟨.Char 'x', 2⟩)) resAbc =
      (false, { resAbc with entryBox := resAbc.entryBox.push 'x' }) ∧
    (key_listener (some (.Key ⟨.Char 'x', 2⟩)) resAbc).2.entryBox.buffer = "abcx" :=
  ⟨by decide, by decide, by decide,
    entry_push_ignores_modifiers 'x' 2 resAbc (by decide) (by decide) (by decide),
    by decide⟩

/-- C2 counterexample: when the first release operation
(`disable_raw_mode`) fails, the drop implementation panics out of the
cleanup (the failure is re-escalated by `.unwrap()`), and neither the
leave-alternate-screen/disable-mouse-capture step nor the show-cursor step
runs — refuting both the "all release steps still run" and the "failures
are absorbed, never re-escalated" parts of the claim. -/
theorem cleanup_unwrap_escalates :
    (appDrop ⟨.error "disable_raw_mode failed", .ok (), .ok ()⟩).2 = true ∧
    CleanupStep.leaveAltScreenDisableMouse ∉
      (appDrop ⟨.error "disable_raw_mode failed", .ok (), .ok ()⟩).1 ∧
    CleanupStep.showCursor ∉
      (appDrop ⟨.error "disable_raw_mode failed", .ok (), .ok ()⟩).1 := by
  refine ⟨rfl, ?_, ?_⟩ <;> decide

/-- C2 amended: the drop implementation invokes the release operations in
order — disable raw mode; leave the alternate screen and disable mouse
capture; show the cursor — and when every operation succeeds, all of them
run exactly once and the drop does not panic; however, each operation's
result is unwrapped, so a failing operation panics out of the cleanup and
the remaining operations do not run. -/
theorem cleanup_all_steps_when_ok (ops : CleanupOps)
    (h1 : ops.disableRawMode = .ok ())
    (h2 : ops.leaveAltScreenDisableMouse = .ok ())
    (h3 : ops.showCursor = .ok ()) :
    appDrop ops =
      ([.disableRawMode, .leaveAltScreenDisableMouse, .showCursor], false) := by
  obtain ⟨o1, o2, o3⟩ := ops
  cases h1
  cases h2
  cases h3
  rfl

/-- Witness for the amended C2 with every release operation succeeding. -/
theorem cleanup_all_steps_when_ok_witness :
    (CleanupOps.mk (.ok ()) (.ok ()) (.ok ())).disableRawMode = .ok () ∧
    (CleanupOps.mk (.ok ()) (.ok ()) (.ok ())).leaveAltScreenDisableMouse = .ok () ∧
    (CleanupOps.mk (.ok ()) (.ok ()) (.ok ())).showCursor = .ok () ∧
    appDrop ⟨.ok (), .ok (), .ok ()⟩ =
      ([.disableRawMode, .leaveAltScreenDisableMouse, .showCursor], false) :=
  ⟨rfl, rfl, rfl, cleanup_all_steps_when_ok ⟨.ok (), .ok (), .ok ()⟩ rfl rfl rfl⟩

/-- C3: after the catch-unwind boundary, the prior panic hook is restored
regardless of outcome; a clean session yields success with an empty message
buffer, and a panicking session yields exactly the error carrying the one
buffered message — so the result is an error if and only if the boundary
caught an abnormal termination. -/
theorem hook_restored_and_single_report (session : SessionRun) :
    (mainModel session).1.hook = Hook.prior ∧
    mainModel session =
      (match session with
       | .clean => ({ hook := .prior, msgs := [] }, Except.ok ())
       | .panics p => ({ hook := .prior, msgs := [hookMsg p] },
                       Except.error (hookMsg p))) := by
  cases session with
  | clean => exact ⟨rfl, rfl⟩
  | panics p =>
    refine ⟨rfl, ?_⟩
    simp [mainModel, runHook, String.join]

/-- C4: for every panic payload, the installed hook appends exactly one
message to the guarded buffer and touches nothing else, and the extracted
message is decided by exactly three cases — a static text payload verbatim,
an owned text payload verbatim, and any other payload type as the fixed
placeholder "Box<dyn Any>". -/
theorem panic_hook_three_cases (st : ProcState) (p : PanicPayload) :
    (runHook st p).msgs = st.msgs ++ [hookMsg p] ∧
    (runHook st p).hook = st.hook ∧
    (∀ s, hookMsg (.staticStr s) = s) ∧
    (∀ s, hookMsg (.ownedString s) = s) ∧
    hookMsg .other = "Box<dyn Any>" :=
  ⟨rfl, rfl, fun _ => rfl, fun _ => rfl, rfl⟩

/-- C9 counterexample: with an empty argument list the process does not
exit before showing the UI — `App::run` enters the alternate screen and
enables mouse capture before the argument list could be consulted, and an
event-less poll tick returns to the loop rather than terminating. -/
theorem empty_args_shows_ui :
    Effect.enterAlternateScreen ∈ runPrelude [] ∧
    Effect.enableMouseCapture ∈ runPrelude [] ∧
    key_listener none (init_resource []) = (false, init_resource []) := by
  refine ⟨?_, ?_, rfl⟩ <;> decide

/-- C9 amended: the argument list is not special-cased — for every argument
list, including the empty one, `App::run` issues the same UI startup
effects, the registry is built with exactly the given list, and the event
loop only terminates on the dispatcher's quit signal (an event-less tick
does not terminate it). -/
theorem args_not_special_cased (args : List String) :
    runPrelude args = [Effect.enterAlternateScreen, Effect.enableMouseCapture] ∧
    (init_resource args).filename = args ∧
    key_listener none (init_resource args) = (false, init_resource args) :=
  ⟨rfl, rfl, rfl⟩
